import Mathlib

/-!
Verification of the wasmi C-API Store/Context/Fuel execution-host model.

The repository sources under scrutiny are the C-API headers
`wasmi/config.h`, `wasmi/engine.h`, `wasmi/store.h` and `wasmi.h`.
They declare the store, context, engine and fuel API; the Rust bodies
behind the declarations are not part of the source tree, so each
operation below is modelled from the specification text that describes
its behaviour.
-/

set_option maxHeartbeats 1000000

namespace Wasmi

/-- Modelled from the spec: `wasmi_compilation_mode_enum` from
`wasmi/config.h` — the three ways bytecode can be compiled. -/
inductive CompilationMode where
  | eager
  | lazy
  | lazyTranslation
deriving DecidableEq, Repr

/-- Modelled from the spec: the configuration bundle built via the
`wasmi_config_*_set` setters declared in `wasmi/config.h` (their bodies
are missing from the tree).  One boolean per toggle plus the
compilation mode, with the documented default values. -/
structure Config where
  consumeFuel : Bool := false
  ignoreCustomSections : Bool := false
  mutableGlobals : Bool := true
  multiValue : Bool := true
  signExtension : Bool := true
  saturatingFloatToInt : Bool := true
  bulkMemory : Bool := true
  referenceTypes : Bool := true
  tailCall : Bool := true
  extendedConst : Bool := true
  floats : Bool := true
  compilationMode : CompilationMode := .eager
deriving DecidableEq, Repr

/-- Modelled from the spec: the error values returned by fallible
context operations.  A fuel query/update on a store whose configuration
has `consumeFuel = false` yields a configuration error. -/
inductive WasmiError where
  | configurationError
deriving DecidableEq, Repr

/-- Modelled from the spec: the store state behind `wasmi_store_t`
(`wasmi/store.h` declares it opaque; the body is missing from the
tree).  A store owns a handle table of runtime objects, retains one
engine environment, holds the opaque embedder data pointer and the
optional finalizer recorded at creation, and carries a fuel meter whose
activity mirrors the configuration's `consumeFuel` flag.  Pointers and
object handles are modelled as natural numbers. -/
structure Store where
  id : Nat
  engineEnv : Nat
  consumeFuel : Bool
  fuel : Nat
  data : Nat
  finalizer : Option Nat
  objects : List Nat
deriving DecidableEq, Repr

/-- Modelled from the spec: `wasmi_store_new` — creates a fresh store
from an engine environment and configuration, with an empty handle
table, the provided embedder data and optional finalizer, and a fuel
meter that starts at zero remaining fuel. -/
def wasmi_store_new (engineEnv : Nat) (cfg : Config) (data : Nat)
    (finalizer : Option Nat) (id : Nat) : Store :=
  { id := id
    engineEnv := engineEnv
    consumeFuel := cfg.consumeFuel
    fuel := 0
    data := data
    finalizer := finalizer
    objects := [] }

/-- Modelled from the spec: `wasmi_store_context` — returns the store's
single stable interior context pointer, modelled as the store's
identity. -/
def wasmi_store_context (s : Store) : Nat :=
  s.id

/-- Modelled from the spec: `wasmi_context_get_data` — returns the
current embedder data pointer, with no side effects. -/
def wasmi_context_get_data (s : Store) : Nat :=
  s.data

/-- Modelled from the spec: `wasmi_context_set_data` — overwrites the
embedder data pointer.  It does not run the finalizer on the old value;
the second component records the finalizer invocations performed by the
call, which are none. -/
def wasmi_context_set_data (s : Store) (d : Nat) : Store × List (Nat × Nat) :=
  ({ s with data := d }, [])

/-- Modelled from the spec: `wasmi_context_set_fuel` — sets the fuel
meter to the given amount when fuel consumption is enabled for the
store's configuration, and fails with a configuration error otherwise,
leaving the store unchanged. -/
def wasmi_context_set_fuel (s : Store) (fuel : Nat) :
    Option WasmiError × Store :=
  if s.consumeFuel then (none, { s with fuel := fuel })
  else (some .configurationError, s)

/-- Modelled from the spec: `wasmi_context_get_fuel` — when fuel
consumption is enabled, succeeds and fills the out-parameter with the
remaining fuel; otherwise fails with a configuration error and leaves
the out-parameter holding its prior value.  The result is the error
marker, the out-parameter's value after the call, and the store. -/
def wasmi_context_get_fuel (s : Store) (out : Nat) :
    Option WasmiError × Nat × Store :=
  if s.consumeFuel then (none, s.fuel, s)
  else (some .configurationError, out, s)

/-- Modelled from the spec: `wasmi_store_delete` — tears the store
down; the result lists the finalizer invocations performed: the
recorded finalizer, if any, applied exactly once to the current
embedder data. -/
def wasmi_store_delete (s : Store) : List (Nat × Nat) :=
  match s.finalizer with
  | some f => [(f, s.data)]
  | none => []

/-- Modelled from the spec: the executor's fuel consumption step.  When
the meter is enabled and `k` units are consumed with `k` at most the
remaining fuel, the meter decreases by `k`; when `k` exceeds the
remaining fuel the attempt traps and leaves the meter at zero.  A
disabled meter is untouched and never traps.  The boolean reports a
trap. -/
def consumeFuelStep (s : Store) (k : Nat) : Store × Bool :=
  if s.consumeFuel then
    if k ≤ s.fuel then ({ s with fuel := s.fuel - k }, false)
    else ({ s with fuel := 0 }, true)
  else (s, false)

/-- A sequence of executor fuel consumption steps, keeping only the
resulting store. -/
def consumeFuelSeq (s : Store) : List Nat → Store
  | [] => s
  | k :: ks => consumeFuelSeq (consumeFuelStep s k).1 ks

/-- Modelled from the spec: the operations that may act on a store
through its context during the store's lifetime. -/
inductive StoreOp where
  | setData (d : Nat)
  | setFuelOp (n : Nat)
  | consume (k : Nat)
  | createObject (o : Nat)
deriving DecidableEq, Repr

/-- Apply one context operation to a store. -/
def applyOp : StoreOp → Store → Store
  | .setData d, s => (wasmi_context_set_data s d).1
  | .setFuelOp n, s => (wasmi_context_set_fuel s n).2
  | .consume k, s => (consumeFuelStep s k).1
  | .createObject o, s => { s with objects := o :: s.objects }

/-- Apply a list of context operations to a store, in order. -/
def applyOps : List StoreOp → Store → Store
  | [], s => s
  | op :: ops, s => applyOps ops (applyOp op s)

/-- A multi-store system: each store identifier maps to its store
state. -/
def StoreSystem : Type := Nat → Store

/-- Apply one operation to the store named `t` in a system; every other
store is untouched. -/
def sysApply (sys : StoreSystem) (t : Nat) (op : StoreOp) : StoreSystem :=
  fun i => if i = t then applyOp op (sys i) else sys i

/-- Apply a list of (target store, operation) pairs to a system, in
order. -/
def sysApplySeq (sys : StoreSystem) : List (Nat × StoreOp) → StoreSystem
  | [] => sys
  | p :: ps => sysApplySeq (sysApply sys p.1 p.2) ps

/-- Modelled from the spec: the engine handle table behind
`wasm_engine_t` and `wasmi_engine_clone` (`wasmi/engine.h` declares the
clone; its body is missing from the tree).  Each live handle records
the shared environment it references; an environment is alive exactly
while some handle references it. -/
structure EngineState where
  handles : List (Nat × Nat)
deriving DecidableEq, Repr

/-- The environment a live engine handle references, if the handle is
live. -/
def envOf (st : EngineState) (h : Nat) : Option Nat :=
  (st.handles.find? (fun p => p.1 == h)).map (fun p => p.2)

/-- Modelled from the spec: `wasmi_engine_clone` — creates a new handle
`fresh` referencing the same underlying environment as `h`, leaving all
existing handles live. -/
def wasmi_engine_clone (st : EngineState) (h fresh : Nat) : EngineState :=
  match envOf st h with
  | some env => { handles := (fresh, env) :: st.handles }
  | none => st

/-- Modelled from the spec: `wasm_engine_delete` — releases one engine
handle; the shared environment survives while other handles reference
it. -/
def wasm_engine_delete (st : EngineState) (h : Nat) : EngineState :=
  { handles := st.handles.filter (fun p => p.1 != h) }

/-- An engine environment is alive while at least one handle references
it; it is torn down once no handle does. -/
def envAlive (st : EngineState) (env : Nat) : Bool :=
  st.handles.any (fun p => p.2 == env)

/-- Modelled from the spec: constructing a store from an engine handle
requires the handle to be live; the store then retains the handle's
environment. -/
def storeNewFromHandle (st : EngineState) (h : Nat) (cfg : Config)
    (data : Nat) (finalizer : Option Nat) (id : Nat) : Option Store :=
  (envOf st h).map (fun env => wasmi_store_new env cfg data finalizer id)

/-- The fuel-activity flag of a store mirrors its configuration and is
never changed by any context operation. -/
theorem applyOp_consumeFuel (op : StoreOp) (s : Store) :
    (applyOp op s).consumeFuel = s.consumeFuel := by
  cases op with
  | setData d => rfl
  | setFuelOp n =>
    simp only [applyOp, wasmi_context_set_fuel]
    by_cases h : s.consumeFuel <;> simp [h]
  | consume k =>
    simp only [applyOp, consumeFuelStep]
    by_cases h : s.consumeFuel
    · by_cases hk : k ≤ s.fuel <;> simp [h, hk]
    · simp [h]
  | createObject o => rfl

/-- The fuel-activity flag is unchanged by any sequence of context
operations. -/
theorem applyOps_consumeFuel (ops : List StoreOp) (s : Store) :
    (applyOps ops s).consumeFuel = s.consumeFuel := by
  induction ops generalizing s with
  | nil => rfl
  | cons op ops ih => simp [applyOps, ih, applyOp_consumeFuel]

/-- Context operations never change the store's identity. -/
theorem applyOp_id (op : StoreOp) (s : Store) :
    (applyOp op s).id = s.id := by
  cases op with
  | setData d => rfl
  | setFuelOp n =>
    simp only [applyOp, wasmi_context_set_fuel]
    by_cases h : s.consumeFuel <;> simp [h]
  | consume k =>
    simp only [applyOp, consumeFuelStep]
    by_cases h : s.consumeFuel
    · by_cases hk : k ≤ s.fuel <;> simp [h, hk]
    · simp [h]
  | createObject o => rfl

/-- The store's identity is unchanged by any sequence of context
operations. -/
theorem applyOps_id (ops : List StoreOp) (s : Store) :
    (applyOps ops s).id = s.id := by
  induction ops generalizing s with
  | nil => rfl
  | cons op ops ih => simp [applyOps, ih, applyOp_id]

/-- One fuel consumption step never increases the remaining fuel. -/
theorem consumeFuelStep_fuel_le (s : Store) (k : Nat) :
    (consumeFuelStep s k).1.fuel ≤ s.fuel := by
  simp only [consumeFuelStep]
  by_cases h : s.consumeFuel
  · by_cases hk : k ≤ s.fuel <;> simp [h, hk, Nat.sub_le, Nat.zero_le]
  · simp [h]

/-- A sequence of fuel consumption steps never increases the remaining
fuel. -/
theorem consumeFuelSeq_fuel_le (ks : List Nat) (s : Store) :
    (consumeFuelSeq s ks).fuel ≤ s.fuel := by
  induction ks generalizing s with
  | nil => exact Nat.le_refl _
  | cons k ks ih =>
    exact Nat.le_trans (ih (consumeFuelStep s k).1) (consumeFuelStep_fuel_le s k)

/-- A configuration equal to the default except that fuel consumption
is enabled; used to exercise the fuel API at concrete inputs. -/
def fuelCfg : Config := { consumeFuel := true }

/-- The default configuration, with fuel consumption disabled. -/
def defaultCfg : Config := {}

/-- A concrete store used to exercise multi-store systems at concrete
inputs. -/
def baseStore : Store := wasmi_store_new 0 defaultCfg 0 none 0

/-- C1: for every store created with fuel consumption enabled and every
64-bit value `n`, setting the fuel to `n` succeeds and a subsequent
fuel query succeeds and reports exactly `n`. -/
theorem setFuel_getFuel_roundtrip (cfg : Config) (engineEnv data id : Nat)
    (fopt : Option Nat) (n out : Nat)
    (hcfg : cfg.consumeFuel = true) (_hn : n < 2 ^ 64) :
    let s := wasmi_store_new engineEnv cfg data fopt id
    (wasmi_context_set_fuel s n).1 = none ∧
    wasmi_context_get_fuel (wasmi_context_set_fuel s n).2 out =
      (none, n, (wasmi_context_set_fuel s n).2) := by
  intro s
  have hs : s.consumeFuel = true := hcfg
  simp [wasmi_context_set_fuel, wasmi_context_get_fuel, hs]

/-- C1 witness: the round trip at `n = 2 ^ 64 - 1`, the largest 64-bit
value. -/
theorem setFuel_getFuel_roundtrip_witness :
    fuelCfg.consumeFuel = true ∧ 2 ^ 64 - 1 < 2 ^ 64 ∧
    ((wasmi_context_set_fuel (wasmi_store_new 0 fuelCfg 7 (some 3) 1)
        (2 ^ 64 - 1)).1 = none ∧
      wasmi_context_get_fuel
          (wasmi_context_set_fuel (wasmi_store_new 0 fuelCfg 7 (some 3) 1)
            (2 ^ 64 - 1)).2 5 =
        (none, 2 ^ 64 - 1,
          (wasmi_context_set_fuel (wasmi_store_new 0 fuelCfg 7 (some 3) 1)
            (2 ^ 64 - 1)).2)) :=
  ⟨rfl, by norm_num,
    setFuel_getFuel_roundtrip fuelCfg 0 7 1 (some 3) (2 ^ 64 - 1) 5 rfl
      (by norm_num)⟩

/-- C2: for every store created with fuel consumption disabled, after
any sequence of context operations, both the fuel setter and the fuel
query fail with a configuration error and never succeed. -/
theorem disabled_fuel_always_errors (cfg : Config) (engineEnv data id : Nat)
    (fopt : Option Nat) (ops : List StoreOp) (n out : Nat)
    (hcfg : cfg.consumeFuel = false) :
    let s := applyOps ops (wasmi_store_new engineEnv cfg data fopt id)
    (wasmi_context_set_fuel s n).1 = some .configurationError ∧
    (wasmi_context_get_fuel s out).1 = some .configurationError := by
  intro s
  have hs : s.consumeFuel = false := by
    show (applyOps ops (wasmi_store_new engineEnv cfg data fopt id)).consumeFuel = false
    rw [applyOps_consumeFuel]
    exact hcfg
  constructor <;> simp [wasmi_context_set_fuel, wasmi_context_get_fuel, hs]

/-- C2 witness: a disabled store still errors after a sequence of set,
consume and data operations. -/
theorem disabled_fuel_always_errors_witness :
    defaultCfg.consumeFuel = false ∧
    (let s := applyOps [StoreOp.setFuelOp 9, StoreOp.consume 4, StoreOp.setData 2]
        (wasmi_store_new 0 defaultCfg 7 none 1);
      (wasmi_context_set_fuel s 3).1 = some .configurationError ∧
      (wasmi_context_get_fuel s 11).1 = some .configurationError) :=
  ⟨rfl,
    disabled_fuel_always_errors defaultCfg 0 7 1 none
      [StoreOp.setFuelOp 9, StoreOp.consume 4, StoreOp.setData 2] 3 11 rfl⟩

/-- C3: on a store with an enabled fuel meter, consumption never
increases the counter past its prior value (no wrap-around);
overdrawing traps and leaves the meter at exactly zero; at zero, every
further positive consumption attempt traps again; and any sequence of
consumption attempts leaves the counter at most its initial value. -/
theorem fuel_saturates_at_zero (s : Store) (k : Nat) (ks : List Nat)
    (hen : s.consumeFuel = true) :
    (consumeFuelStep s k).1.fuel ≤ s.fuel ∧
    (s.fuel < k →
      (consumeFuelStep s k).2 = true ∧ (consumeFuelStep s k).1.fuel = 0) ∧
    (s.fuel = 0 → 0 < k → (consumeFuelStep s k).2 = true) ∧
    (consumeFuelSeq s ks).fuel ≤ s.fuel := by
  refine ⟨consumeFuelStep_fuel_le s k, ?_, ?_, consumeFuelSeq_fuel_le ks s⟩
  · intro hlt
    have hk : ¬ k ≤ s.fuel := Nat.not_le_of_lt hlt
    simp [consumeFuelStep, hen, hk]
  · intro hz hk
    have hk2 : ¬ k ≤ s.fuel := by omega
    simp [consumeFuelStep, hen, hk2]

/-- C3 witness: consuming 150 units from an enabled meter holding 100
traps, leaves zero, and a further attempt of one unit traps again. -/
theorem fuel_saturates_at_zero_witness :
    ((wasmi_context_set_fuel (wasmi_store_new 0 fuelCfg 0 none 0) 100).2).consumeFuel = true ∧
    ((consumeFuelStep ((wasmi_context_set_fuel (wasmi_store_new 0 fuelCfg 0 none 0) 100).2) 150).1.fuel ≤
        ((wasmi_context_set_fuel (wasmi_store_new 0 fuelCfg 0 none 0) 100).2).fuel ∧
      (((wasmi_context_set_fuel (wasmi_store_new 0 fuelCfg 0 none 0) 100).2).fuel < 150 →
        (consumeFuelStep ((wasmi_context_set_fuel (wasmi_store_new 0 fuelCfg 0 none 0) 100).2) 150).2 = true ∧
        (consumeFuelStep ((wasmi_context_set_fuel (wasmi_store_new 0 fuelCfg 0 none 0) 100).2) 150).1.fuel = 0) ∧
      (((wasmi_context_set_fuel (wasmi_store_new 0 fuelCfg 0 none 0) 100).2).fuel = 0 → 0 < 150 →
        (consumeFuelStep ((wasmi_context_set_fuel (wasmi_store_new 0 fuelCfg 0 none 0) 100).2) 150).2 = true) ∧
      (consumeFuelSeq ((wasmi_context_set_fuel (wasmi_store_new 0 fuelCfg 0 none 0) 100).2) [150, 1]).fuel ≤
        ((wasmi_context_set_fuel (wasmi_store_new 0 fuelCfg 0 none 0) 100).2).fuel) :=
  ⟨rfl,
    fuel_saturates_at_zero
      ((wasmi_context_set_fuel (wasmi_store_new 0 fuelCfg 0 none 0) 100).2)
      150 [150, 1] rfl⟩

/-- C4: a freshly created store with fuel consumption enabled and no
prior fuel setter call holds exactly zero fuel — the fuel query
succeeds and reports zero — and the first metered unit of execution
traps immediately. -/
theorem fresh_enabled_store_traps_immediately (cfg : Config)
    (engineEnv data id out k : Nat) (fopt : Option Nat)
    (hcfg : cfg.consumeFuel = true) (hk : 0 < k) :
    let s := wasmi_store_new engineEnv cfg data fopt id
    wasmi_context_get_fuel s out = (none, 0, s) ∧
    (consumeFuelStep s k).2 = true := by
  intro s
  have hs : s.consumeFuel = true := hcfg
  have hz : s.fuel = 0 := rfl
  constructor
  · simp [wasmi_context_get_fuel, hs, hz]
  · have hk2 : ¬ k ≤ s.fuel := by omega
    simp [consumeFuelStep, hs, hk2]

/-- C4 witness: a fresh fuel-enabled store reports zero fuel and traps
on a first unit of cost one. -/
theorem fresh_enabled_store_traps_immediately_witness :
    fuelCfg.consumeFuel = true ∧ 0 < 1 ∧
    (let s := wasmi_store_new 0 fuelCfg 7 none 1;
      wasmi_context_get_fuel s 9 = (none, 0, s) ∧
      (consumeFuelStep s 1).2 = true) :=
  ⟨rfl, Nat.zero_lt_one,
    fresh_enabled_store_traps_immediately fuelCfg 0 7 1 9 1 none rfl
      Nat.zero_lt_one⟩

/-- C5: overwriting the embedder data with `d2` runs no finalizer, and
deleting the store afterwards runs the finalizer recorded at creation
exactly once, on `d2` rather than on the original `d1`. -/
theorem finalizer_once_on_current_data (cfg : Config)
    (engineEnv d1 d2 f id : Nat) :
    let s := wasmi_store_new engineEnv cfg d1 (some f) id
    (wasmi_context_set_data s d2).2 = [] ∧
    wasmi_store_delete (wasmi_context_set_data s d2).1 = [(f, d2)] := by
  intro s
  exact ⟨rfl, rfl⟩

/-- A handle found for `h` in the table is a table entry whose first
component is `h`. -/
theorem envOf_eq_some (st : EngineState) (h env : Nat)
    (hh : envOf st h = some env) :
    ∃ p ∈ st.handles, p.1 = h ∧ p.2 = env := by
  unfold envOf at hh
  cases hfind : st.handles.find? (fun q => q.1 == h) with
  | none => rw [hfind] at hh; simp at hh
  | some p =>
    rw [hfind] at hh
    simp only [Option.map_some', Option.some.injEq] at hh
    refine ⟨p, List.mem_of_find?_eq_some hfind, ?_, hh⟩
    have := List.find?_some hfind
    exact eq_of_beq this

/-- C6: cloning an engine handle yields a handle referencing the same
underlying environment; releasing the original handle leaves the clone
live and able to construct stores; and an environment stays alive —
is not torn down — while any handle still references it. -/
theorem engine_clone_keeps_sibling_valid (st : EngineState) (e0 e1 env : Nat)
    (cfg : Config) (data id : Nat) (fopt : Option Nat) (st3 : EngineState)
    (h0 : envOf st e0 = some env)
    (hfresh : ∀ p ∈ st.handles, p.1 ≠ e1)
    (hst3 : ∃ p ∈ st3.handles, p.2 = env) :
    let st2 := wasmi_engine_clone st e0 e1
    envOf st2 e1 = some env ∧
    envOf (wasm_engine_delete st2 e0) e1 = some env ∧
    envAlive (wasm_engine_delete st2 e0) env = true ∧
    (storeNewFromHandle (wasm_engine_delete st2 e0) e1 cfg data fopt id).isSome = true ∧
    envAlive st3 env = true := by
  intro st2
  obtain ⟨p, hpmem, hp1, hp2⟩ := envOf_eq_some st e0 env h0
  have hne : e1 ≠ e0 := fun hcontra => hfresh p hpmem (hp1.trans hcontra.symm)
  have hst2 : st2 = { handles := (e1, env) :: st.handles } := by
    show wasmi_engine_clone st e0 e1 = _
    unfold wasmi_engine_clone
    rw [h0]
  have hdel : (wasm_engine_delete st2 e0).handles =
      (e1, env) :: st.handles.filter (fun p => p.1 != e0) := by
    rw [hst2]
    unfold wasm_engine_delete
    simp only [List.filter_cons]
    have : ((e1, env).1 != e0) = true := by
      simp [bne_iff_ne, hne]
    rw [this]
    simp
  have henv1 : envOf st2 e1 = some env := by
    rw [hst2]
    unfold envOf
    rw [List.find?_cons_of_pos _ (by simp)]
    rfl
  have henv2 : envOf (wasm_engine_delete st2 e0) e1 = some env := by
    unfold envOf
    rw [hdel]
    rw [List.find?_cons_of_pos _ (by simp)]
    rfl
  refine ⟨henv1, henv2, ?_, ?_, ?_⟩
  · unfold envAlive
    rw [hdel]
    simp
  · unfold storeNewFromHandle
    rw [henv2]
    rfl
  · obtain ⟨q, hqmem, hq2⟩ := hst3
    unfold envAlive
    rw [List.any_eq_true]
    exact ⟨q, hqmem, by simp [hq2]⟩

/-- C6 witness: one handle 0 to environment 42; cloning it to handle 1
and releasing handle 0 leaves handle 1 live on environment 42. -/
theorem engine_clone_keeps_sibling_valid_witness :
    envOf (EngineState.mk [(0, 42)]) 0 = some 42 ∧
    (let st2 := wasmi_engine_clone (EngineState.mk [(0, 42)]) 0 1;
      envOf st2 1 = some 42 ∧
      envOf (wasm_engine_delete st2 0) 1 = some 42 ∧
      envAlive (wasm_engine_delete st2 0) 42 = true ∧
      (storeNewFromHandle (wasm_engine_delete st2 0) 1 defaultCfg 7 none 5).isSome = true ∧
      envAlive (EngineState.mk [(3, 42)]) 42 = true) :=
  ⟨rfl,
    engine_clone_keeps_sibling_valid (EngineState.mk [(0, 42)]) 0 1 42
      defaultCfg 7 5 none (EngineState.mk [(3, 42)]) rfl
      (by decide) ⟨(3, 42), by decide, rfl⟩⟩

/-- Operations that never target store `b` leave the system's entry
for `b` untouched. -/
theorem sysApplySeq_frame (ops : List (Nat × StoreOp)) (sys : StoreSystem)
    (b : Nat) (hb : ∀ p ∈ ops, p.1 ≠ b) :
    sysApplySeq sys ops b = sys b := by
  induction ops generalizing sys with
  | nil => rfl
  | cons p ps ih =>
    show sysApplySeq (sysApply sys p.1 p.2) ps b = sys b
    rw [ih (sysApply sys p.1 p.2) (fun q hq => hb q (List.mem_cons_of_mem p hq))]
    have hne : b ≠ p.1 := fun hcontra => hb p (List.mem_cons_self p ps) hcontra.symm
    simp [sysApply, hne]

/-- C7: for distinct stores, any sequence of operations none of which
targets store `b` — in particular, any sequence of operations on other
stores sharing the same engine — leaves every observation through
store `b`'s context unchanged, including its handle table of runtime
objects. -/
theorem store_isolation (sys : StoreSystem) (ops : List (Nat × StoreOp))
    (b : Nat) (hb : ∀ p ∈ ops, p.1 ≠ b) :
    sysApplySeq sys ops b = sys b ∧
    (sysApplySeq sys ops b).objects = (sys b).objects := by
  have main := sysApplySeq_frame ops sys b hb
  exact ⟨main, by rw [main]⟩

/-- C7 witness: creating an object in store 0 leaves store 1's state
and handle table untouched. -/
theorem store_isolation_witness :
    (∀ p ∈ [((0 : Nat), StoreOp.createObject 5)], p.1 ≠ 1) ∧
    (sysApplySeq (fun _ => baseStore) [((0 : Nat), StoreOp.createObject 5)] 1 =
        (fun _ => baseStore) 1 ∧
      (sysApplySeq (fun _ => baseStore) [((0 : Nat), StoreOp.createObject 5)] 1).objects =
        ((fun _ => baseStore) 1).objects) :=
  ⟨by decide,
    store_isolation (fun _ => baseStore) [((0 : Nat), StoreOp.createObject 5)] 1
      (by decide)⟩

/-- C8: the context of a store is the store's identity, so repeated
calls return the same value, and this value is unchanged by every
sequence of context operations over the store's lifetime. -/
theorem context_stable (s : Store) (ops : List StoreOp) :
    wasmi_store_context (applyOps ops s) = wasmi_store_context s ∧
    wasmi_store_context s = s.id :=
  ⟨by unfold wasmi_store_context; rw [applyOps_id], rfl⟩

/-- C9: on a store with fuel consumption disabled, the fuel query
fails with a configuration error, leaves the out-parameter holding its
prior value and leaves the store unchanged; and on any store the
out-parameter is overwritten only when the query returns no error. -/
theorem getFuel_disabled_frame (s t : Store) (out o : Nat)
    (h : s.consumeFuel = false) :
    (wasmi_context_get_fuel s out).1 = some .configurationError ∧
    (wasmi_context_get_fuel s out).2.1 = out ∧
    (wasmi_context_get_fuel s out).2.2 = s ∧
    ((wasmi_context_get_fuel t o).1 ≠ none →
      (wasmi_context_get_fuel t o).2.1 = o) := by
  refine ⟨?_, ?_, ?_, ?_⟩
  · simp [wasmi_context_get_fuel, h]
  · simp [wasmi_context_get_fuel, h]
  · simp [wasmi_context_get_fuel, h]
  · by_cases ht : t.consumeFuel <;> simp [wasmi_context_get_fuel, ht]

/-- C9 witness: the query on a fresh disabled store with out-parameter
5 errors and leaves 5 in place. -/
theorem getFuel_disabled_frame_witness :
    (wasmi_store_new 0 defaultCfg 7 none 1).consumeFuel = false ∧
    ((wasmi_context_get_fuel (wasmi_store_new 0 defaultCfg 7 none 1) 5).1 =
        some .configurationError ∧
      (wasmi_context_get_fuel (wasmi_store_new 0 defaultCfg 7 none 1) 5).2.1 = 5 ∧
      (wasmi_context_get_fuel (wasmi_store_new 0 defaultCfg 7 none 1) 5).2.2 =
        wasmi_store_new 0 defaultCfg 7 none 1 ∧
      ((wasmi_context_get_fuel baseStore 9).1 ≠ none →
        (wasmi_context_get_fuel baseStore 9).2.1 = 9)) :=
  ⟨rfl,
    getFuel_disabled_frame (wasmi_store_new 0 defaultCfg 7 none 1) baseStore
      5 9 rfl⟩

/-- C10: store teardown passes the finalizer only the final embedder
data pointer: the finalizer invocations at deletion are determined by
the recorded finalizer and current data alone, independent of every
other part of the store — its context, fuel state and handle table
included. -/
theorem finalizer_sees_only_data (s1 s2 : Store)
    (hf : s1.finalizer = s2.finalizer) (hd : s1.data = s2.data) :
    wasmi_store_delete s1 = wasmi_store_delete s2 := by
  unfold wasmi_store_delete
  rw [hf, hd]

/-- C10 witness: two stores agreeing only on finalizer and data — they
differ in identity, engine, fuel activity, fuel and handle table —
produce identical teardown finalizer invocations. -/
theorem finalizer_sees_only_data_witness :
    (Store.mk 0 0 false 0 7 (some 3) []).finalizer =
        (Store.mk 1 2 true 99 7 (some 3) [4, 5]).finalizer ∧
    (Store.mk 0 0 false 0 7 (some 3) []).data =
        (Store.mk 1 2 true 99 7 (some 3) [4, 5]).data ∧
    wasmi_store_delete (Store.mk 0 0 false 0 7 (some 3) []) =
      wasmi_store_delete (Store.mk 1 2 true 99 7 (some 3) [4, 5]) :=
  ⟨rfl, rfl,
    finalizer_sees_only_data (Store.mk 0 0 false 0 7 (some 3) [])
      (Store.mk 1 2 true 99 7 (some 3) [4, 5]) rfl rfl⟩

end Wasmi
